import Mathlib

/-!
Shallow embedding of the OpenNero logging facility
(`src/tags/release-2010-01-05/source/core/Log.cpp`) and of the
`SceneObject` rendering wrapper
(`src/branches/capture-the-flag/source/render/SceneObject.h`).

Modelling choices:
* An `ILogConnectionPtr` (a `boost::shared_ptr<ILogConnection>`) is an
  `Option ILogConnection`; `none` is the null pointer.  A connection record
  carries a pointer identity `ptrId` (so that shared-pointer equality, which
  compares addresses, becomes decidable equality of the record), its
  `getConnectionName()` string, and the kind of output sink it writes to.
* The two static variables `sLogConnections` and `sFilterList` are the two
  fields of `LogState`; each mutating function becomes a state transformer,
  and each logging call becomes a function from the state to the list of
  `Delivery` events it performs (which connection received which message at
  which severity, in call order).
* The release is dated 2010-01-05, i.e. it is compiled as C++03, where
  `std::remove` copy-assigns the kept elements to the front of the range and
  leaves the positions past the returned iterator holding their previous
  values.  `stdRemove` reproduces exactly that (the code never calls `erase`,
  so the whole range stays in the vector).
-/

namespace OpenNero

/-- Kind of output sink behind a log connection: a `FileStreamConnection`
writing to a named file, a `StreamLogConnection<std::ostream>` writing to
`std::cout`, or any other user-supplied connection. -/
inductive ConnKind where
  | fileStream (fileName : String)
  | consoleStream
  | other (tag : Nat)
deriving DecidableEq

/-- An `ILogConnection` instance: pointer identity, the string returned by
`getConnectionName()`, and the kind of sink it writes to. -/
structure ILogConnection where
  ptrId : Nat
  connectionName : String
  kind : ConnKind
deriving DecidableEq

/-- A `boost::shared_ptr<ILogConnection>`; `none` models the null pointer. -/
abbrev ILogConnectionPtr := Option ILogConnection

/-- The `FilterList` type: a list of message-type strings to ignore. -/
abbrev FilterList := List String

/-- Which of the four member log functions of `ILogConnection` is invoked
(the `MemberLogFunc` pointer passed to `OutputToLogFunc`). -/
inductive Severity where
  | debug
  | msg
  | warning
  | error
deriving DecidableEq

/-- One observable logging event: connection `conn` received message
`message` through the member function selected by `sev`. -/
structure Delivery where
  conn : ILogConnection
  sev : Severity
  message : String
deriving DecidableEq

/-- The static state of the `Log` namespace: the connection vector
`sLogConnections` and the filter list `sFilterList`. -/
structure LogState where
  sLogConnections : List ILogConnectionPtr
  sFilterList : FilterList
deriving DecidableEq

namespace Log

namespace LogUtil

/-- `LogUtil::find`: walk `sLogConnections` and return the first connection
whose `getConnectionName()` equals `cname`, or null if none is found.
(The C++ loop dereferences each element without a null check; a null element
would be undefined behaviour there.  The `none` arm is therefore never taken
in a reachable state — see the connection-validity invariant below.) -/
def find (conns : List ILogConnectionPtr) (cname : String) : ILogConnectionPtr :=
  match conns with
  | [] => none
  | some c :: rest => if c.connectionName == cname then some c else find rest cname
  | none :: rest => find rest cname

/-- The unfiltered tail of `LogUtil::OutputToLogFunc`: if `connectionName`
is null, broadcast `msg` to every connection in `sLogConnections` in order;
otherwise deliver it to the connection `LogUtil::find` returns, if any. -/
def outputUnfiltered (sev : Severity) (connectionName : Option String)
    (msg : String) (s : LogState) : List Delivery :=
  match connectionName with
  | none => (s.sLogConnections.filterMap id).map (fun c => ⟨c, sev, msg⟩)
  | some n =>
    match find s.sLogConnections n with
    | some c => [⟨c, sev, msg⟩]
    | none => []

/-- `LogUtil::OutputToLogFunc`: if `msgType` is non-null and contained in
`sFilterList`, return without delivering anything; otherwise run the
broadcast / named-connection delivery. -/
def OutputToLogFunc (sev : Severity) (msgType connectionName : Option String)
    (msg : String) (s : LogState) : List Delivery :=
  match msgType with
  | some t =>
    if s.sFilterList.contains t then []
    else outputUnfiltered sev connectionName msg s
  | none => outputUnfiltered sev connectionName msg s

end LogUtil

/-- The `Assert( *itr )` executed for each element during a broadcast:
it succeeds on the whole list iff every stored pointer is non-null. -/
def broadcastAssertOk (s : LogState) : Bool :=
  s.sLogConnections.all Option.isSome

/-- `Log::LogDebug`: forward to `OutputToLogFunc` with
`&ILogConnection::LogDebug`. -/
def LogDebug (type connectionName : Option String) (msg : String)
    (s : LogState) : List Delivery :=
  LogUtil.OutputToLogFunc .debug type connectionName msg s

/-- `Log::LogMsg`: forward to `OutputToLogFunc` with
`&ILogConnection::LogMsg`. -/
def LogMsg (type connectionName : Option String) (msg : String)
    (s : LogState) : List Delivery :=
  LogUtil.OutputToLogFunc .msg type connectionName msg s

/-- `Log::LogWarning`: forward to `OutputToLogFunc` with
`&ILogConnection::LogWarning`. -/
def LogWarning (type connectionName : Option String) (msg : String)
    (s : LogState) : List Delivery :=
  LogUtil.OutputToLogFunc .warning type connectionName msg s

/-- `Log::LogError`: forward to `OutputToLogFunc` with
`&ILogConnection::LogError`. -/
def LogError (type connectionName : Option String) (msg : String)
    (s : LogState) : List Delivery :=
  LogUtil.OutputToLogFunc .error type connectionName msg s

/-- Dispatch over the four public logging entry points by severity. -/
def logCall : Severity → Option String → Option String → String → LogState → List Delivery
  | .debug => LogDebug
  | .msg => LogMsg
  | .warning => LogWarning
  | .error => LogError

/-- `Log::AddLogConnection`: `push_back` the pointer onto `sLogConnections`,
but only when it is non-null. -/
def AddLogConnection (conn : ILogConnectionPtr) (s : LogState) : LogState :=
  if conn.isSome then
    { s with sLogConnections := s.sLogConnections ++ [conn] }
  else s

/-- C++03 `std::remove(begin, end, v)` on the whole vector: the elements not
equal to `v` are copy-assigned to the front of the range in order, and the
positions from the returned iterator to `end` keep the values they already
held.  No element is erased, so the length is unchanged. -/
def stdRemove (l : List ILogConnectionPtr) (v : ILogConnectionPtr) :
    List ILogConnectionPtr :=
  let kept := l.filter (fun x => x != v)
  kept ++ l.drop kept.length

/-- `Log::RemoveLogConnection`: apply `std::remove` to `sLogConnections`
without a subsequent `erase`. -/
def RemoveLogConnection (conn : ILogConnectionPtr) (s : LogState) : LogState :=
  { s with sLogConnections := stdRemove s.sLogConnections conn }

/-- `Log::LogSystemInit`: construct a `FileStreamConnection` named
`nero_file_log` writing to `nero_log.txt` and a console
`StreamLogConnection<std::ostream>` named `console_log` writing to
`std::cout`, and add them in that order.  `fileId` and `stdioId` stand for
the fresh addresses returned by the two `new` expressions. -/
def LogSystemInit (fileId stdioId : Nat) (s : LogState) : LogState :=
  let fileLog : ILogConnectionPtr :=
    some ⟨fileId, "nero_file_log", ConnKind.fileStream "nero_log.txt"⟩
  let stdioLog : ILogConnectionPtr :=
    some ⟨stdioId, "console_log", ConnKind.consoleStream⟩
  AddLogConnection stdioLog (AddLogConnection fileLog s)

/-- `Log::LogSystemSpecifyFilters`: assign `flist` to `sFilterList`. -/
def LogSystemSpecifyFilters (flist : FilterList) (s : LogState) : LogState :=
  { s with sFilterList := flist }

/-- `Log::LogSystemShutdown`: `clear()` the connection vector. -/
def LogSystemShutdown (s : LogState) : LogState :=
  { s with sLogConnections := [] }

end Log

/-- Modelled from the spec: `Log.h` (not part of the provided sources)
defines the `LOG_F_*` macros used by the Python bindings; per the spec the
logging facility has "message-type filtering" and is "exposed to an embedded
scripting layer" whose bindings log "as a broadcast (no target connection
name)" with the given message type.  `LOG_F_DEBUG(type, msg)` therefore
calls `Log::LogDebug(type, NULL, msg)`. -/
def LOG_F_DEBUG (type msg : String) (s : LogState) : List Delivery :=
  Log.LogDebug (some type) none msg s

/-- Modelled from the spec: `LOG_F_MSG(type, msg)` calls
`Log::LogMsg(type, NULL, msg)` (see `LOG_F_DEBUG`). -/
def LOG_F_MSG (type msg : String) (s : LogState) : List Delivery :=
  Log.LogMsg (some type) none msg s

/-- Modelled from the spec: `LOG_F_WARNING(type, msg)` calls
`Log::LogWarning(type, NULL, msg)` (see `LOG_F_DEBUG`). -/
def LOG_F_WARNING (type msg : String) (s : LogState) : List Delivery :=
  Log.LogWarning (some type) none msg s

/-- Modelled from the spec: `LOG_F_ERROR(type, msg)` calls
`Log::LogError(type, NULL, msg)` (see `LOG_F_DEBUG`). -/
def LOG_F_ERROR (type msg : String) (s : LogState) : List Delivery :=
  Log.LogError (some type) none msg s

/-- `py_log_debug`: log a debugging message from Python,
`LOG_F_DEBUG("python", msg)`. -/
def py_log_debug (msg : String) (s : LogState) : List Delivery :=
  LOG_F_DEBUG "python" msg s

/-- `py_log_msg`: log a message from Python, `LOG_F_MSG("python", msg)`. -/
def py_log_msg (msg : String) (s : LogState) : List Delivery :=
  LOG_F_MSG "python" msg s

/-- `py_log_warning`: log a warning message from Python,
`LOG_F_WARNING("python", msg)`. -/
def py_log_warning (msg : String) (s : LogState) : List Delivery :=
  LOG_F_WARNING "python" msg s

/-- `py_log_error`: log an error message from Python,
`LOG_F_ERROR("python", msg)`. -/
def py_log_error (msg : String) (s : LogState) : List Delivery :=
  LOG_F_ERROR "python" msg s

/-- `PYTHON_BINDER(LogBinder)`: the scripting layer registers exactly these
four bindings, in the order the `def(...)` calls appear. -/
def LogBinder : List (String × (String → LogState → List Delivery)) :=
  [ ("log_message", py_log_msg)
  , ("log_warn", py_log_warning)
  , ("log_debug", py_log_debug)
  , ("log_error", py_log_error) ]

/-- States of the logging system reachable from static initialisation
(both lists empty) through the public mutating interface. -/
inductive Reachable : LogState → Prop where
  | start : Reachable ⟨[], []⟩
  | add (conn : ILogConnectionPtr) (s : LogState) :
      Reachable s → Reachable (Log.AddLogConnection conn s)
  | remove (conn : ILogConnectionPtr) (s : LogState) :
      Reachable s → Reachable (Log.RemoveLogConnection conn s)
  | sysInit (fileId stdioId : Nat) (s : LogState) :
      Reachable s → Reachable (Log.LogSystemInit fileId stdioId s)
  | setFilters (flist : FilterList) (s : LogState) :
      Reachable s → Reachable (Log.LogSystemSpecifyFilters flist s)
  | shutdown (s : LogState) :
      Reachable s → Reachable (Log.LogSystemShutdown s)

/-- The `SceneObject` node pointers relevant to `hasMesh`; each field is an
optional node identity standing for a possibly-null Irrlicht node pointer. -/
structure SceneObject where
  mSceneNode : Option Nat
  mAniSceneNode : Option Nat
  mTerrSceneNode : Option Nat
  mParticleSystemNode : Option Nat
  mTextNode : Option Nat
deriving DecidableEq

/-- `SceneObject::hasMesh`: `return mTerrSceneNode != NULL;`. -/
def SceneObject.hasMesh (so : SceneObject) : Bool :=
  so.mTerrSceneNode != none

/-! ## Helper lemmas -/

/-- The four public logging functions are `OutputToLogFunc` applied at the
corresponding member-function pointer. -/
theorem logCall_eq_output (sev : Severity) (t cn : Option String) (msg : String)
    (s : LogState) :
    Log.logCall sev t cn msg s = Log.LogUtil.OutputToLogFunc sev t cn msg s := by
  cases sev <;> rfl

/-- Mapping `some` back over the values kept by `filterMap id` recovers a
list all of whose elements are non-null. -/
theorem filterMap_id_map_some {α : Type} {l : List (Option α)}
    (h : ∀ p ∈ l, p.isSome) : (l.filterMap id).map some = l := by
  induction l with
  | nil => rfl
  | cons p rest ih =>
    cases p with
    | none => exact absurd (h none (List.mem_cons_self _ _)) (by simp)
    | some a =>
      simp only [List.filterMap_cons, id]
      simp [ih fun q hq => h q (List.mem_cons_of_mem _ hq)]

/-- `LogUtil::find` returns the first non-null connection whose name
matches. -/
theorem find_eq_findFirst (conns : List ILogConnectionPtr) (n : String) :
    Log.LogUtil.find conns n =
      (conns.filterMap id).find? (fun c => c.connectionName == n) := by
  induction conns with
  | nil => rfl
  | cons p rest ih =>
    cases p with
    | none => simpa [Log.LogUtil.find] using ih
    | some c =>
      rw [show List.filterMap id (some c :: rest) = c :: List.filterMap id rest from by simp]
      rw [List.find?_cons]
      by_cases h : c.connectionName = n
      · simp [Log.LogUtil.find, h]
      · have hb : (c.connectionName == n) = false := by
          simpa using h
        simp [Log.LogUtil.find, hb, ih]

/-- A message whose type is null or not in the filter list reaches the
delivery stage unchanged. -/
theorem output_not_filtered (sev : Severity) (msgType cn : Option String)
    (msg : String) (s : LogState)
    (hfilter : ∀ t ∈ msgType, t ∉ s.sFilterList) :
    Log.LogUtil.OutputToLogFunc sev msgType cn msg s =
      Log.LogUtil.outputUnfiltered sev cn msg s := by
  cases msgType with
  | none => rfl
  | some t =>
    have hnot : s.sFilterList.contains t = false := by
      simpa using hfilter t rfl
    simp only [Log.LogUtil.OutputToLogFunc, hnot, Bool.false_eq_true, if_false]

/-- With no registered connections nothing is delivered. -/
theorem output_no_connections (sev : Severity) (cn : Option String)
    (msg : String) (s : LogState) (h : s.sLogConnections = []) :
    Log.LogUtil.outputUnfiltered sev cn msg s = [] := by
  cases cn with
  | none => simp [Log.LogUtil.outputUnfiltered, h]
  | some n => simp [Log.LogUtil.outputUnfiltered, h, Log.LogUtil.find]

/-- `stdRemove` never changes the length of the vector. -/
theorem stdRemove_length (l : List ILogConnectionPtr) (v : ILogConnectionPtr) :
    (Log.stdRemove l v).length = l.length := by
  unfold Log.stdRemove
  have h := List.length_filter_le (fun x => x != v) l
  simp only [List.length_append, List.length_drop]
  omega

/-- Every element of the vector after `stdRemove` was already an element
before it. -/
theorem stdRemove_mem (l : List ILogConnectionPtr) (v p : ILogConnectionPtr)
    (hp : p ∈ Log.stdRemove l v) : p ∈ l := by
  unfold Log.stdRemove at hp
  rcases List.mem_append.mp hp with h | h
  · exact List.mem_of_mem_filter h
  · exact List.mem_of_mem_drop h

/-- `AddLogConnection` preserves the all-pointers-valid invariant. -/
theorem add_preserves_valid (conn : ILogConnectionPtr) (s : LogState)
    (ih : ∀ p ∈ s.sLogConnections, p.isSome) :
    ∀ p ∈ (Log.AddLogConnection conn s).sLogConnections, p.isSome := by
  intro p hp
  unfold Log.AddLogConnection at hp
  by_cases hc : conn.isSome
  · simp only [hc, if_true, List.mem_append, List.mem_singleton] at hp
    rcases hp with hp | hp
    · exact ih p hp
    · exact hp ▸ hc
  · simp only [hc, if_false] at hp
    exact ih p hp

/-- In every reachable state every stored connection pointer is non-null. -/
theorem reachable_valid (s : LogState) (h : Reachable s) :
    ∀ p ∈ s.sLogConnections, p.isSome := by
  induction h with
  | start => intro p hp; exact absurd hp (List.not_mem_nil p)
  | add conn s hr ih => exact add_preserves_valid conn s ih
  | remove conn s hr ih =>
    intro p hp
    exact ih p (stdRemove_mem s.sLogConnections conn p hp)
  | sysInit fileId stdioId s hr ih =>
    exact add_preserves_valid _ _ (add_preserves_valid _ _ ih)
  | setFilters flist s hr ih => exact ih
  | shutdown s hr ih =>
    intro p hp
    exact absurd hp (List.not_mem_nil p)

/-! ## Claim theorems -/

/-- C1: every call to `Log::LogDebug`, `Log::LogMsg`, `Log::LogWarning` or
`Log::LogError` with a null `connectionName` and a message type that is null
or not in the current filter list delivers the message exactly once to every
registered connection, in the order of the connection list. -/
theorem broadcast_unfiltered_delivers_to_all
    (sev : Severity) (msgType : Option String) (msg : String) (s : LogState)
    (hvalid : ∀ p ∈ s.sLogConnections, p.isSome)
    (hfilter : ∀ t ∈ msgType, t ∉ s.sFilterList) :
    (Log.logCall sev msgType none msg s).map (fun d => some d.conn) =
        s.sLogConnections ∧
    ∀ d ∈ Log.logCall sev msgType none msg s, d.sev = sev ∧ d.message = msg := by
  have hout : Log.logCall sev msgType none msg s =
      Log.LogUtil.outputUnfiltered sev none msg s := by
    rw [logCall_eq_output, output_not_filtered sev msgType none msg s hfilter]
  rw [hout]
  unfold Log.LogUtil.outputUnfiltered
  constructor
  · rw [List.map_map]
    exact filterMap_id_map_some hvalid
  · intro d hd
    simp only [List.mem_map] at hd
    obtain ⟨c, hc, rfl⟩ := hd
    exact ⟨rfl, rfl⟩

/-- Witness for C1 at a concrete two-connection state. -/
theorem broadcast_unfiltered_delivers_to_all_witness :
    (Log.logCall .msg (some "ai") none "hi"
        ⟨[some ⟨1, "a", ConnKind.other 0⟩, some ⟨2, "b", ConnKind.other 1⟩],
         ["net"]⟩).map (fun d => some d.conn) =
      [some ⟨1, "a", ConnKind.other 0⟩, some ⟨2, "b", ConnKind.other 1⟩] ∧
    ∀ d ∈ Log.logCall .msg (some "ai") none "hi"
        ⟨[some ⟨1, "a", ConnKind.other 0⟩, some ⟨2, "b", ConnKind.other 1⟩],
         ["net"]⟩, d.sev = .msg ∧ d.message = "hi" :=
  broadcast_unfiltered_delivers_to_all .msg (some "ai") "hi"
    ⟨[some ⟨1, "a", ConnKind.other 0⟩, some ⟨2, "b", ConnKind.other 1⟩], ["net"]⟩
    (by decide) (by decide)

/-- C2: a call to any of the four logging functions whose message type is
non-null and contained in the filter list delivers nothing, whether the call
is a broadcast or targets a named connection; a null message type is never
filtered and always reaches the delivery stage. -/
theorem filtered_type_delivers_nothing
    (sev : Severity) (t : String) (msg : String) (s : LogState)
    (hmem : t ∈ s.sFilterList) :
    (∀ cn, Log.logCall sev (some t) cn msg s = []) ∧
    ∀ cn, Log.logCall sev none cn msg s =
      Log.LogUtil.outputUnfiltered sev cn msg s := by
  constructor
  · intro cn
    rw [logCall_eq_output]
    have hc : s.sFilterList.contains t = true := by simpa using hmem
    simp only [Log.LogUtil.OutputToLogFunc, hc, if_true]
  · intro cn
    rw [logCall_eq_output]
    rfl

/-- Witness for C2 with filter list `["net"]` and message type `"net"`. -/
theorem filtered_type_delivers_nothing_witness :
    (∀ cn, Log.logCall .warning (some "net") cn "hi"
        ⟨[some ⟨1, "a", ConnKind.other 0⟩], ["net"]⟩ = []) ∧
    ∀ cn, Log.logCall .warning none cn "hi"
        ⟨[some ⟨1, "a", ConnKind.other 0⟩], ["net"]⟩ =
      Log.LogUtil.outputUnfiltered .warning cn "hi"
        ⟨[some ⟨1, "a", ConnKind.other 0⟩], ["net"]⟩ :=
  filtered_type_delivers_nothing .warning "net" "hi"
    ⟨[some ⟨1, "a", ConnKind.other 0⟩], ["net"]⟩ (by decide)

/-- C3: `Log::RemoveLogConnection` applies `std::remove` without `erase`, so
the connection list keeps exactly its former length; in particular, removing
the only registered connection leaves a later broadcast still delivering the
message to one connection. -/
theorem removeLogConnection_preserves_length
    (conn : ILogConnectionPtr) (s : LogState) :
    (Log.RemoveLogConnection conn s).sLogConnections.length =
        s.sLogConnections.length ∧
    ∀ (c : ILogConnection) (sev : Severity) (msg : String),
      s.sLogConnections = [some c] →
      (Log.logCall sev none none msg
          (Log.RemoveLogConnection (some c) s)).length = 1 := by
  constructor
  · exact stdRemove_length s.sLogConnections conn
  · intro c sev msg h
    rw [logCall_eq_output]
    show (Log.LogUtil.outputUnfiltered sev none msg
        (Log.RemoveLogConnection (some c) s)).length = 1
    simp [Log.LogUtil.outputUnfiltered, Log.RemoveLogConnection,
      Log.stdRemove, h]

/-- Witness for C3: removing the sole connection leaves one element and a
broadcast still reaches it. -/
theorem removeLogConnection_preserves_length_witness :
    (Log.RemoveLogConnection (some ⟨1, "a", ConnKind.other 0⟩)
        ⟨[some ⟨1, "a", ConnKind.other 0⟩], []⟩).sLogConnections.length =
      1 ∧
    (Log.logCall .debug none none "hi"
        (Log.RemoveLogConnection (some ⟨1, "a", ConnKind.other 0⟩)
          ⟨[some ⟨1, "a", ConnKind.other 0⟩], []⟩)).length = 1 := by
  have h := removeLogConnection_preserves_length
    (some ⟨1, "a", ConnKind.other 0⟩) ⟨[some ⟨1, "a", ConnKind.other 0⟩], []⟩
  exact ⟨h.1, h.2 ⟨1, "a", ConnKind.other 0⟩ .debug "hi" rfl⟩

/-- C4: a call to any of the four logging functions with a non-null
`connectionName` and an unfiltered message type delivers the message exactly
to the first registered connection whose `getConnectionName()` equals
`connectionName`, and to no other; with no such connection nothing is
delivered. -/
theorem named_delivery_first_match
    (sev : Severity) (msgType : Option String) (n msg : String) (s : LogState)
    (hfilter : ∀ t ∈ msgType, t ∉ s.sFilterList) :
    Log.logCall sev msgType (some n) msg s =
      match (s.sLogConnections.filterMap id).find?
          (fun c => c.connectionName == n) with
      | some c => [⟨c, sev, msg⟩]
      | none => [] := by
  rw [logCall_eq_output, output_not_filtered sev msgType (some n) msg s hfilter]
  simp only [Log.LogUtil.outputUnfiltered, find_eq_findFirst]
  rfl

/-- Witness for C4: with two connections named `b`, only the first receives
the message. -/
theorem named_delivery_first_match_witness :
    Log.logCall .error (some "ai") (some "b") "hi"
        ⟨[some ⟨1, "a", ConnKind.other 0⟩, some ⟨2, "b", ConnKind.other 1⟩,
          some ⟨3, "b", ConnKind.other 2⟩], []⟩ =
      [⟨⟨2, "b", ConnKind.other 1⟩, .error, "hi"⟩] := by
  rw [named_delivery_first_match .error (some "ai") "b" "hi"
    ⟨[some ⟨1, "a", ConnKind.other 0⟩, some ⟨2, "b", ConnKind.other 1⟩,
      some ⟨3, "b", ConnKind.other 2⟩], []⟩ (by decide)]
  decide

/-- C5: `Log::LogSystemInit` appends exactly two connections to the existing
connection list without clearing it: first the file connection named
`nero_file_log` writing to `nero_log.txt`, then the console connection named
`console_log` writing to `std::cout`; the filter list is untouched. -/
theorem logSystemInit_appends_file_then_console
    (fileId stdioId : Nat) (s : LogState) :
    (Log.LogSystemInit fileId stdioId s).sLogConnections =
      s.sLogConnections ++
        [some ⟨fileId, "nero_file_log", ConnKind.fileStream "nero_log.txt"⟩,
         some ⟨stdioId, "console_log", ConnKind.consoleStream⟩] ∧
    (Log.LogSystemInit fileId stdioId s).sFilterList = s.sFilterList := by
  constructor
  · simp [Log.LogSystemInit, Log.AddLogConnection]
  · simp [Log.LogSystemInit, Log.AddLogConnection]

/-- C6: the scripting layer exposes exactly the four bindings `log_message`,
`log_warn`, `log_debug` and `log_error`, bound to `py_log_msg`,
`py_log_warning`, `py_log_debug` and `py_log_error`, and each logs the given
string as a broadcast (null connection name) with message type `python` at
the corresponding severity. -/
theorem logBinder_exposes_four_broadcast_bindings :
    LogBinder.map Prod.fst = ["log_message", "log_warn", "log_debug", "log_error"] ∧
    LogBinder.map Prod.snd = [py_log_msg, py_log_warning, py_log_debug, py_log_error] ∧
    (∀ msg s, py_log_msg msg s =
      Log.LogUtil.OutputToLogFunc .msg (some "python") none msg s) ∧
    (∀ msg s, py_log_warning msg s =
      Log.LogUtil.OutputToLogFunc .warning (some "python") none msg s) ∧
    (∀ msg s, py_log_debug msg s =
      Log.LogUtil.OutputToLogFunc .debug (some "python") none msg s) ∧
    (∀ msg s, py_log_error msg s =
      Log.LogUtil.OutputToLogFunc .error (some "python") none msg s) :=
  ⟨rfl, rfl, fun _ _ => rfl, fun _ _ => rfl, fun _ _ => rfl, fun _ _ => rfl⟩

/-- C7: `Log::LogSystemSpecifyFilters` replaces the whole filter list with
`flist` and leaves the connection list unchanged; afterwards a message type
in `flist` is dropped and any other message type is delivered, so filtering
consults only `flist`. -/
theorem logSystemSpecifyFilters_replaces_filters
    (flist : FilterList) (s : LogState) :
    (Log.LogSystemSpecifyFilters flist s).sFilterList = flist ∧
    (Log.LogSystemSpecifyFilters flist s).sLogConnections = s.sLogConnections ∧
    (∀ sev t cn msg, t ∈ flist →
      Log.logCall sev (some t) cn msg (Log.LogSystemSpecifyFilters flist s) = []) ∧
    ∀ sev t cn msg, t ∉ flist →
      Log.logCall sev (some t) cn msg (Log.LogSystemSpecifyFilters flist s) =
        Log.LogUtil.outputUnfiltered sev cn msg
          (Log.LogSystemSpecifyFilters flist s) := by
  refine ⟨rfl, rfl, ?_, ?_⟩
  · intro sev t cn msg ht
    rw [logCall_eq_output]
    have hc : (Log.LogSystemSpecifyFilters flist s).sFilterList.contains t = true := by
      simpa [Log.LogSystemSpecifyFilters] using ht
    simp only [Log.LogUtil.OutputToLogFunc, hc, if_true]
  · intro sev t cn msg ht
    rw [logCall_eq_output]
    refine output_not_filtered sev (some t) cn msg _ ?_
    intro t2 h2
    rw [Option.mem_def, Option.some.injEq] at h2
    subst h2
    exact ht

/-- Witness for C7: after specifying `["net"]` over an older filter list
`["ai"]`, a `net` message is dropped and an `ai` message is delivered. -/
theorem logSystemSpecifyFilters_replaces_filters_witness :
    (Log.LogSystemSpecifyFilters ["net"]
        ⟨[some ⟨1, "a", ConnKind.other 0⟩], ["ai"]⟩).sFilterList = ["net"] ∧
    (Log.logCall .msg (some "net") none "hi"
        (Log.LogSystemSpecifyFilters ["net"]
          ⟨[some ⟨1, "a", ConnKind.other 0⟩], ["ai"]⟩) = []) ∧
    Log.logCall .msg (some "ai") none "hi"
        (Log.LogSystemSpecifyFilters ["net"]
          ⟨[some ⟨1, "a", ConnKind.other 0⟩], ["ai"]⟩) =
      Log.LogUtil.outputUnfiltered .msg none "hi"
        (Log.LogSystemSpecifyFilters ["net"]
          ⟨[some ⟨1, "a", ConnKind.other 0⟩], ["ai"]⟩) := by
  have h := logSystemSpecifyFilters_replaces_filters ["net"]
    ⟨[some ⟨1, "a", ConnKind.other 0⟩], ["ai"]⟩
  exact ⟨h.1, h.2.2.1 .msg "net" none "hi" (by decide),
    h.2.2.2 .msg "ai" none "hi" (by decide)⟩

/-- C8: after `Log::LogSystemShutdown` the connection list is empty and the
filter list is unchanged, and every subsequent logging call delivers the
message to no connection. -/
theorem logSystemShutdown_clears_connections (s : LogState) :
    (Log.LogSystemShutdown s).sLogConnections = [] ∧
    (Log.LogSystemShutdown s).sFilterList = s.sFilterList ∧
    ∀ sev t cn msg,
      Log.logCall sev t cn msg (Log.LogSystemShutdown s) = [] := by
  refine ⟨rfl, rfl, ?_⟩
  intro sev t cn msg
  rw [logCall_eq_output]
  cases t with
  | none => exact output_no_connections sev cn msg _ rfl
  | some t2 =>
    simp only [Log.LogUtil.OutputToLogFunc]
    by_cases hc : (Log.LogSystemShutdown s).sFilterList.contains t2
    · simp only [hc, if_true]
    · simp only [hc, Bool.false_eq_true, if_false]
      exact output_no_connections sev cn msg _ rfl

/-- C9: in every reachable state of the logging system every element of the
connection list is a non-null pointer, so the per-connection
`Assert( *itr )` executed during a broadcast never fails.  (In the C++03
build of this 2010 release `std::remove` copy-assigns, so even
`RemoveLogConnection` leaves no null slot behind.) -/
theorem reachable_broadcast_assert_never_fails (s : LogState)
    (h : Reachable s) :
    (∀ p ∈ s.sLogConnections, p.isSome) ∧ Log.broadcastAssertOk s = true := by
  have hv := reachable_valid s h
  refine ⟨hv, ?_⟩
  simp only [Log.broadcastAssertOk, List.all_eq_true]
  exact fun p hp => hv p hp

/-- Witness for C9 at the state reached by one `AddLogConnection` after a
`LogSystemInit`. -/
theorem reachable_broadcast_assert_never_fails_witness :
    (∀ p ∈ (Log.AddLogConnection (some ⟨7, "w", ConnKind.other 3⟩)
        (Log.LogSystemInit 1 2 ⟨[], []⟩)).sLogConnections, p.isSome) ∧
    Log.broadcastAssertOk (Log.AddLogConnection (some ⟨7, "w", ConnKind.other 3⟩)
        (Log.LogSystemInit 1 2 ⟨[], []⟩)) = true :=
  reachable_broadcast_assert_never_fails _
    (Reachable.add _ _ (Reachable.sysInit 1 2 _ Reachable.start))

/-- C10: `SceneObject::hasMesh` returns true exactly when the terrain node
pointer is non-null; it ignores the animated mesh node, so an object whose
only node is an animated mesh reports `hasMesh()` as false. -/
theorem hasMesh_iff_terrain_node (so : SceneObject) :
    (so.hasMesh = true ↔ so.mTerrSceneNode ≠ none) ∧
    (so.mTerrSceneNode = none → so.hasMesh = false) := by
  constructor
  · simp [SceneObject.hasMesh]
  · intro h
    simp [SceneObject.hasMesh, h]

/-- Witness for C10: an object holding only an animated mesh node has
`hasMesh() = false`. -/
theorem hasMesh_iff_terrain_node_witness :
    SceneObject.hasMesh ⟨none, some 3, none, none, none⟩ = false :=
  (hasMesh_iff_terrain_node ⟨none, some 3, none, none, none⟩).2 rfl

end OpenNero
